import Mathlib

/-!
Verification of the system-monitor collector/aggregation engine.

Shallow embedding conventions:
* Python `float` values are modelled as `ℚ` (the program only compares,
  adds, divides and rounds them).
* `datetime` values are modelled as `ℤ` UTC timestamps in seconds; the
  ISO-8601 strings stored in SQLite compare lexicographically in the same
  order as the timestamps they encode, so SQL comparisons on the stored
  strings are modelled as integer comparisons.
* `datetime.replace(hour=0, minute=0, second=0, microsecond=0)` becomes
  `midnightOf`, and `strftime("%Y-%m-%d")` (used as a report-period key)
  becomes the day number `dayOf`, both injective renderings of the date.
* SQLite tables are lists of row structures in insertion order; queries
  with `ORDER BY` sort explicitly (stable mergeSort).
* Reads of the wall clock (`datetime.utcnow()`) become explicit `now`
  parameters.
-/

/-- Seconds in one day. -/
def secPerDay : Int := 86400

/-- Day number of a timestamp (embeds `strftime("%Y-%m-%d")`). -/
def dayOf (t : Int) : Int := t.fdiv secPerDay

/-- Midnight of the day containing `t`
(embeds `replace(hour=0, minute=0, second=0, microsecond=0)`). -/
def midnightOf (t : Int) : Int := secPerDay * dayOf t

/-- Python truthiness of an `Optional[float]`: `None` and `0.0` are falsy. -/
def pyTruthy (o : Option ℚ) : Bool :=
  match o with
  | none => false
  | some v => v != 0

/-- models.py `DiskPartition`. -/
structure DiskPartition where
  device : String
  mountpoint : String
  filesystem : String
  total_gb : ℚ
  used_gb : ℚ
  free_gb : ℚ
  percent_used : ℚ
deriving Repr, DecidableEq

/-- models.py `NetworkIO`. -/
structure NetworkIO where
  bytes_sent : Int
  bytes_recv : Int
  packets_sent : Int
  packets_recv : Int
deriving Repr, DecidableEq

/-- models.py `CPUTemperature`. -/
structure CPUTemperature where
  max_temp_celsius : Option ℚ := none
  recorded_at : Int
  available : Bool := true
deriving Repr, DecidableEq

/-- models.py `SystemMetrics`. -/
structure SystemMetrics where
  client_id : String
  hostname : String
  collected_at : Int
  cpu_percent : ℚ
  cpu_count : Nat
  cpu_freq_mhz : Option ℚ := none
  cpu_temperature : CPUTemperature
  ram_total_gb : ℚ
  ram_used_gb : ℚ
  ram_available_gb : ℚ
  ram_percent : ℚ
  swap_total_gb : ℚ
  swap_used_gb : ℚ
  swap_percent : ℚ
  disk_partitions : List DiskPartition
  network_io : NetworkIO
  uptime_seconds : Int
  process_count : Nat
  load_avg_1 : ℚ
  load_avg_5 : ℚ
  load_avg_15 : ℚ
deriving Repr, DecidableEq

/-- models.py `AlertThresholds`. -/
structure AlertThresholds where
  cpu_percent : ℚ := 90
  ram_percent : ℚ := 90
  disk_percent : ℚ := 85
  temperature_celsius : ℚ := 80
  load_avg_multiplier : ℚ := 2
deriving Repr, DecidableEq

/-- models.py `Alert`. -/
structure Alert where
  client_id : String
  hostname : String
  metric_name : String
  current_value : ℚ
  threshold_value : ℚ
  recorded_at : Int
  message : String
deriving Repr, DecidableEq

/-- server.py `check_thresholds`: check metrics against thresholds and
return any alerts.  The body's single `datetime.utcnow()` read is the
explicit parameter `now`. -/
def check_thresholds (metrics : SystemMetrics) (thresholds : AlertThresholds)
    (now : Int) : List Alert :=
  (if metrics.cpu_percent > thresholds.cpu_percent then
    [{ client_id := metrics.client_id
       hostname := metrics.hostname
       metric_name := "cpu_percent"
       current_value := metrics.cpu_percent
       threshold_value := thresholds.cpu_percent
       recorded_at := now
       message := "🔥 CPU alto: " ++ toString metrics.cpu_percent ++
         "% (soglia: " ++ toString thresholds.cpu_percent ++ "%)" }]
  else []) ++
  (if metrics.ram_percent > thresholds.ram_percent then
    [{ client_id := metrics.client_id
       hostname := metrics.hostname
       metric_name := "ram_percent"
       current_value := metrics.ram_percent
       threshold_value := thresholds.ram_percent
       recorded_at := now
       message := "💾 RAM alta: " ++ toString metrics.ram_percent ++
         "% (soglia: " ++ toString thresholds.ram_percent ++ "%)" }]
  else []) ++
  ((metrics.disk_partitions.filter
      (fun p => p.percent_used > thresholds.disk_percent)).map
    (fun p =>
      { client_id := metrics.client_id
        hostname := metrics.hostname
        metric_name := "disk_" ++ p.mountpoint
        current_value := p.percent_used
        threshold_value := thresholds.disk_percent
        recorded_at := now
        message := "💿 Disco pieno " ++ p.mountpoint ++ ": " ++
          toString p.percent_used ++ "% (soglia: " ++
          toString thresholds.disk_percent ++ "%)" })) ++
  (if metrics.cpu_temperature.available ∧
      pyTruthy metrics.cpu_temperature.max_temp_celsius ∧
      metrics.cpu_temperature.max_temp_celsius.getD 0 >
        thresholds.temperature_celsius then
    [{ client_id := metrics.client_id
       hostname := metrics.hostname
       metric_name := "cpu_temperature"
       current_value := metrics.cpu_temperature.max_temp_celsius.getD 0
       threshold_value := thresholds.temperature_celsius
       recorded_at := now
       message := "🌡️ Temperatura alta: " ++
         toString (metrics.cpu_temperature.max_temp_celsius.getD 0) ++
         "°C (soglia: " ++ toString thresholds.temperature_celsius ++ "°C)" }]
  else []) ++
  (if metrics.load_avg_1 >
      thresholds.load_avg_multiplier * (metrics.cpu_count : ℚ) then
    [{ client_id := metrics.client_id
       hostname := metrics.hostname
       metric_name := "load_avg"
       current_value := metrics.load_avg_1
       threshold_value := thresholds.load_avg_multiplier * (metrics.cpu_count : ℚ)
       recorded_at := now
       message := "⚡ Load alto: " ++ toString metrics.load_avg_1 ++
         " (soglia: " ++
         toString (thresholds.load_avg_multiplier * (metrics.cpu_count : ℚ)) ++
         ")" }]
  else [])

/-! ## Database layer (database.py)

Each SQLite table is a list of row structures in insertion order.
`ORDER BY` clauses sort explicitly; SQLite leaves the relative order of
equal keys unspecified, so a deterministic insertion sort is a valid
refinement of the query plan. -/

/-- Insert `a` into `l` before the first element `b` with `le a b`. -/
def insertLe (le : α → α → Bool) (a : α) : List α → List α
  | [] => [a]
  | b :: bs => if le a b then a :: b :: bs else b :: insertLe le a bs

/-- Insertion sort by the boolean relation `le` (embeds SQL `ORDER BY`). -/
def sortLe (le : α → α → Bool) : List α → List α
  | [] => []
  | a :: as => insertLe le a (sortLe le as)

/-- A row of the `metrics` table (the `disk_partitions` JSON column is kept
structured; `id`/`created_at` are never read back and are omitted). -/
structure MetricRow where
  client_id : String
  hostname : String
  collected_at : Int
  cpu_percent : ℚ
  cpu_count : Nat
  cpu_freq_mhz : Option ℚ
  cpu_temp_max : Option ℚ
  cpu_temp_time : Option Int
  cpu_temp_available : Bool
  ram_total_gb : ℚ
  ram_used_gb : ℚ
  ram_available_gb : ℚ
  ram_percent : ℚ
  swap_total_gb : ℚ
  swap_used_gb : ℚ
  swap_percent : ℚ
  disk_partitions : List DiskPartition
  network_bytes_sent : Int
  network_bytes_recv : Int
  network_packets_sent : Int
  network_packets_recv : Int
  uptime_seconds : Int
  process_count : Nat
  load_avg_1 : ℚ
  load_avg_5 : ℚ
  load_avg_15 : ℚ
deriving Repr, DecidableEq

/-- A row of the `alerts` table: the `Alert` columns plus `notified`
(`DEFAULT 0`). -/
structure AlertRow where
  alert : Alert
  notified : Bool := false
deriving Repr, DecidableEq

/-- models.py `ClientInfo`; also a row of the `clients` table. -/
structure ClientInfo where
  client_id : String
  hostname : String
  first_seen : Int
  last_seen : Int
  metrics_count : Nat
deriving Repr, DecidableEq

/-- A row of the `daily_reports` table.  `report_date` holds the day key
(the `strftime("%Y-%m-%d")` string). -/
structure DailyReportRow where
  report_date : Int
  sent_at : Int
  client_count : Nat
  report_content : String
deriving Repr, DecidableEq

/-- models.py `UpdatablePackage`. -/
structure UpdatablePackage where
  name : String
  current_version : String
  new_version : String
  repository : Option String := none
deriving Repr, DecidableEq

/-- models.py `PackageUpdates`. -/
structure PackageUpdates where
  client_id : String
  hostname : String
  collected_at : Int
  package_manager : String
  packages : List UpdatablePackage
  security_updates : Nat := 0
deriving Repr, DecidableEq

/-- models.py `PackageUpdates.total_count`. -/
def PackageUpdates.total_count (u : PackageUpdates) : Nat := u.packages.length

/-- models.py `PackageUpdatesReport`. -/
structure PackageUpdatesReport where
  status : String
  message : String
  received_at : Int
deriving Repr, DecidableEq

/-- models.py `DailySummary` (`date` holds the day key rendered by
`strftime("%Y-%m-%d")`). -/
structure DailySummary where
  client_id : String
  hostname : String
  date : Int
  cpu_avg : ℚ
  cpu_max : ℚ
  cpu_max_time : Option Int := none
  ram_avg_percent : ℚ
  ram_max_percent : ℚ
  ram_max_time : Option Int := none
  temp_avg : Option ℚ := none
  temp_max : Option ℚ := none
  temp_max_time : Option Int := none
  disk_max_percent : ℚ
  disk_max_partition : String
  network_sent_gb : ℚ
  network_recv_gb : ℚ
  load_avg_max : ℚ
  uptime_hours : ℚ
  alerts_count : Nat := 0
deriving Repr, DecidableEq

/-- The database state (database.py `Database`).  The `package_updates`
table backs the package-update methods that server.py calls; those
methods are absent from the database.py source and are modelled from the
spec below. -/
structure DB where
  metrics : List MetricRow := []
  alerts : List AlertRow := []
  clients : List ClientInfo := []
  daily_reports : List DailyReportRow := []
  package_updates : List PackageUpdates := []
deriving Repr, DecidableEq

/-- The `ON CONFLICT(client_id) DO UPDATE` upsert inside `store_metrics`:
update the existing row in place, else append a fresh row with count 1. -/
def upsertClient (client_id hostname : String) (seen : Int) :
    List ClientInfo → List ClientInfo
  | [] => [{ client_id := client_id, hostname := hostname,
             first_seen := seen, last_seen := seen, metrics_count := 1 }]
  | c :: cs =>
    if c.client_id == client_id then
      { c with hostname := hostname, last_seen := seen,
               metrics_count := c.metrics_count + 1 } :: cs
    else
      c :: upsertClient client_id hostname seen cs

/-- database.py `store_metrics`: insert a `metrics` row and upsert the
client row (the returned SQLite rowid is never consumed and is omitted). -/
def store_metrics (metrics : SystemMetrics) (db : DB) : DB :=
  { db with
    metrics := db.metrics ++
      [{ client_id := metrics.client_id
         hostname := metrics.hostname
         collected_at := metrics.collected_at
         cpu_percent := metrics.cpu_percent
         cpu_count := metrics.cpu_count
         cpu_freq_mhz := metrics.cpu_freq_mhz
         cpu_temp_max := metrics.cpu_temperature.max_temp_celsius
         cpu_temp_time :=
           if pyTruthy metrics.cpu_temperature.max_temp_celsius then
             some metrics.cpu_temperature.recorded_at
           else none
         cpu_temp_available := metrics.cpu_temperature.available
         ram_total_gb := metrics.ram_total_gb
         ram_used_gb := metrics.ram_used_gb
         ram_available_gb := metrics.ram_available_gb
         ram_percent := metrics.ram_percent
         swap_total_gb := metrics.swap_total_gb
         swap_used_gb := metrics.swap_used_gb
         swap_percent := metrics.swap_percent
         disk_partitions := metrics.disk_partitions
         network_bytes_sent := metrics.network_io.bytes_sent
         network_bytes_recv := metrics.network_io.bytes_recv
         network_packets_sent := metrics.network_io.packets_sent
         network_packets_recv := metrics.network_io.packets_recv
         uptime_seconds := metrics.uptime_seconds
         process_count := metrics.process_count
         load_avg_1 := metrics.load_avg_1
         load_avg_5 := metrics.load_avg_5
         load_avg_15 := metrics.load_avg_15 }]
    clients :=
      upsertClient metrics.client_id metrics.hostname metrics.collected_at
        db.clients }

/-- database.py `store_alert`: append an `alerts` row, `notified = 0`. -/
def store_alert (alert : Alert) (db : DB) : DB :=
  { db with alerts := db.alerts ++ [{ alert := alert, notified := false }] }

/-- database.py `get_clients`: `SELECT * FROM clients ORDER BY last_seen DESC`. -/
def get_clients (db : DB) : List ClientInfo :=
  sortLe (fun a b => decide (b.last_seen ≤ a.last_seen)) db.clients

/-- Python `round` to an integer: round-half-to-even. -/
def pyRoundInt (q : ℚ) : Int :=
  let f := q.floor
  if q - (f : ℚ) < 1 / 2 then f
  else if (1 : ℚ) / 2 < q - (f : ℚ) then f + 1
  else if f % 2 = 0 then f else f + 1

/-- Python `round(q, n)`. -/
def pyRound (n : Nat) (q : ℚ) : ℚ :=
  ((pyRoundInt (q * 10 ^ n) : ℚ)) / 10 ^ n

/-- Python `max(x :: xs, key := f)`: the first element attaining the
maximal key (later elements replace the best only when strictly greater). -/
def pyMaxBy (f : α → ℚ) (x : α) (xs : List α) : α :=
  xs.foldl (fun b a => if f a > f b then a else b) x

/-- The `SELECT * FROM metrics WHERE client_id = ? AND collected_at >= ?
AND collected_at < ? ORDER BY collected_at ASC` query of
`get_daily_summary`, for the day starting at `start`. -/
def summaryWindowRows (client_id : String) (start : Int) (db : DB) :
    List MetricRow :=
  sortLe (fun a b => decide (a.collected_at ≤ b.collected_at))
    (db.metrics.filter (fun r =>
      r.client_id == client_id &&
        (decide (start ≤ r.collected_at) &&
          decide (r.collected_at < start + secPerDay))))

/-- The `SELECT COUNT(*) FROM alerts WHERE client_id = ? AND recorded_at
>= ? AND recorded_at < ?` query of `get_daily_summary`. -/
def summaryAlertsCount (client_id : String) (start : Int) (db : DB) : Nat :=
  (db.alerts.filter (fun a =>
    a.alert.client_id == client_id &&
      (decide (start ≤ a.alert.recorded_at) &&
        decide (a.alert.recorded_at < start + secPerDay)))).length

/-- database.py `get_daily_summary`. -/
def get_daily_summary (client_id : String) (date : Int) (db : DB) :
    Option DailySummary :=
  let start := midnightOf date
  match db.clients.find? (fun c => c.client_id == client_id) with
  | none => none
  | some client =>
    match summaryWindowRows client_id start db with
    | [] => none
    | r0 :: rest =>
      let rows := r0 :: rest
      let cpu_values := rows.map (·.cpu_percent)
      let ram_values := rows.map (·.ram_percent)
      -- `[r["cpu_temp_max"] for r in rows if r["cpu_temp_max"] is not None]`:
      -- the filter tests only that a value is present.
      let temp_values := rows.filterMap (·.cpu_temp_max)
      let load_values := rows.map (·.load_avg_1)
      let cpu_max_row := pyMaxBy (·.cpu_percent) r0 rest
      let ram_max_row := pyMaxBy (·.ram_percent) r0 rest
      let diskMax := rows.foldl
        (fun acc r => r.disk_partitions.foldl
          (fun acc2 p =>
            if p.percent_used > acc2.1 then (p.percent_used, p.mountpoint)
            else acc2)
          acc)
        ((0 : ℚ), "N/A")
      let first_row := r0
      let last_row := rows.getLastD r0
      let network_sent : ℚ :=
        ((last_row.network_bytes_sent - first_row.network_bytes_sent : Int) : ℚ)
          / 1024 ^ 3
      let network_recv : ℚ :=
        ((last_row.network_bytes_recv - first_row.network_bytes_recv : Int) : ℚ)
          / 1024 ^ 3
      let alerts_count := summaryAlertsCount client_id start db
      let temp_rows := rows.filter (fun r => r.cpu_temp_max.isSome)
      let temp_max_row : Option MetricRow :=
        match temp_values, temp_rows with
        | _ :: _, t0 :: ts => some (pyMaxBy (fun r => r.cpu_temp_max.getD 0) t0 ts)
        | _, _ => none
      some
        { client_id := client_id
          hostname := client.hostname
          date := dayOf start
          cpu_avg := pyRound 1 (cpu_values.sum / cpu_values.length)
          -- `max(cpu_values)`: `cpu_values` is nonempty (`rows = r0 :: rest`),
          -- so the `[]` branch of each `max` below is unreachable.
          cpu_max := pyRound 1
            (match cpu_values with | [] => 0 | x :: xs => pyMaxBy id x xs)
          cpu_max_time := some cpu_max_row.collected_at
          ram_avg_percent := pyRound 1 (ram_values.sum / ram_values.length)
          ram_max_percent := pyRound 1
            (match ram_values with | [] => 0 | x :: xs => pyMaxBy id x xs)
          ram_max_time := some ram_max_row.collected_at
          temp_avg :=
            match temp_values with
            | [] => none
            | t :: ts => some (pyRound 1 ((t :: ts).sum / (t :: ts).length))
          temp_max :=
            match temp_values with
            | [] => none
            | t :: ts => some (pyRound 1 (pyMaxBy id t ts))
          temp_max_time := temp_max_row.map (·.collected_at)
          disk_max_percent := pyRound 1 diskMax.1
          disk_max_partition := diskMax.2
          -- `round(max(0, network_sent), 2)`
          network_sent_gb := pyRound 2 (if network_sent > 0 then network_sent else 0)
          network_recv_gb := pyRound 2 (if network_recv > 0 then network_recv else 0)
          load_avg_max := pyRound 2
            (match load_values with | [] => 0 | x :: xs => pyMaxBy id x xs)
          uptime_hours := pyRound 1 ((last_row.uptime_seconds : ℚ) / 3600)
          alerts_count := alerts_count }

/-- database.py `cleanup_old_data`: delete `metrics` and `alerts` rows
older than `now - retention_days`.  The row counts are computed for the
log line only; the Python function returns `None`, embedded as the
`none` second component. -/
def cleanup_old_data (now : Int) (retention_days : Nat) (db : DB) :
    DB × Option (Nat × Nat) :=
  let cutoff := now - retention_days * secPerDay
  let kept_metrics := db.metrics.filter (fun r => !decide (r.collected_at < cutoff))
  let kept_alerts := db.alerts.filter (fun a => !decide (a.alert.recorded_at < cutoff))
  ({ db with metrics := kept_metrics, alerts := kept_alerts }, none)

/-- database.py `store_daily_report`: record a sent daily report; the
`report_date` column stores the day key of the passed datetime. -/
def store_daily_report (report_date : Int) (content : String)
    (client_count : Nat) (now : Int) (db : DB) : DB :=
  { db with daily_reports := db.daily_reports ++
      [{ report_date := dayOf report_date, sent_at := now,
         client_count := client_count, report_content := content }] }

/-- database.py `was_daily_report_sent`. -/
def was_daily_report_sent (report_date : Int) (db : DB) : Bool :=
  db.daily_reports.any (fun r => r.report_date == dayOf report_date)

/-- Modelled from the spec: database.py as shipped lacks
`store_package_updates` (server.py calls it at `/packages`); the spec's
store contract says `put_package_updates(u: PackageUpdateSet)` keeps "One
logical latest record per client; older sets for the same client are
superseded". -/
def store_package_updates (u : PackageUpdates) (db : DB) : DB :=
  { db with package_updates :=
      u :: db.package_updates.filter (fun v => v.client_id != u.client_id) }

/-- Modelled from the spec: database.py as shipped lacks
`get_latest_package_updates`; the spec's store contract says
`get_latest_package_updates(client_id) -> PackageUpdateSet|not-found`,
returning the client's stored latest set. -/
def get_latest_package_updates (client_id : String) (db : DB) :
    Option PackageUpdates :=
  db.package_updates.find? (fun v => v.client_id == client_id)

/-! ## Notifier (notifier.py) and daily report job (server.py) -/

/-- notifier.py `send_notification`, abstracted over its two effect
sources: `enabled` is `config.ntfy.enabled`, `transport_ok` is the
outcome of the outbound HTTP POST (status 200, no exception).  Returns
`(success, outbound)` where `outbound` records whether the HTTP call was
made: when disabled it returns success without any outbound call. -/
def send_notification (enabled : Bool) (transport_ok : Bool) : Bool × Bool :=
  if !enabled then (true, false) else (transport_ok, true)

/-- server.py `receive_package_updates` (`POST /packages`): store the set,
acknowledge; no threshold evaluation. -/
def receive_package_updates (updates : PackageUpdates) (now : Int) (db : DB) :
    DB × PackageUpdatesReport :=
  (store_package_updates updates db,
   { status := "ok"
     message := "Package updates stored: " ++
       toString updates.total_count ++ " packages"
     received_at := now })

/-- How one invocation of `send_daily_report` terminated. -/
inductive DailyOutcome
  | alreadySent
  | noClients
  | noSummaries
  | sent
  | sendFailed
deriving Repr, DecidableEq

/-- Result of one `send_daily_report` invocation: the new database state,
the path taken, and whether an outbound notification call was made. -/
structure DailyRunResult where
  db : DB
  outcome : DailyOutcome
  outbound : Bool
deriving Repr, DecidableEq

/-- The per-client summary collection loop of `send_daily_report`
(a `DailySummary` object is always truthy, so the `if summary:` test
keeps exactly the clients whose summary is not `None`). -/
def daily_summaries (now : Int) (db : DB) : List DailySummary :=
  (get_clients db).filterMap
    (fun c => get_daily_summary c.client_id (midnightOf now) db)

/-- The `report_lines.extend`/`append` block of `send_daily_report` for
one client summary. -/
def summaryLines (s : DailySummary) : List String :=
  (["┌─ " ++ s.hostname ++ " (" ++ s.client_id ++ ")",
    "│ CPU: avg " ++ toString s.cpu_avg ++ "% | max " ++ toString s.cpu_max ++ "%",
    "│ RAM: avg " ++ toString s.ram_avg_percent ++ "% | max " ++
      toString s.ram_max_percent ++ "%"] ++
   (if s.temp_max ≠ none then
      ["│ Temp: avg " ++ toString s.temp_avg ++ "°C | max " ++
        toString s.temp_max ++ "°C"]
    else []) ++
   ["│ Disco: max " ++ toString s.disk_max_percent ++ "% (" ++
      s.disk_max_partition ++ ")",
    "│ Network: ↑" ++ toString s.network_sent_gb ++ "GB ↓" ++
      toString s.network_recv_gb ++ "GB",
    "│ Load max: " ++ toString s.load_avg_max ++ " | Uptime: " ++
      toString s.uptime_hours ++ "h"] ++
   (if s.alerts_count > 0 then
      ["│ ⚠️ Alert: " ++ toString s.alerts_count]
    else []) ++
   ["└─────────────────────────", ""])

/-- The `report_content` string built by `send_daily_report`. -/
def dailyReportContent (yesterday : Int) (summaries : List DailySummary) :
    String :=
  String.intercalate "\n"
    (["📊 Report Giornaliero - " ++ toString (dayOf yesterday),
      "━━━━━━━━━━━━━━━━━━━━━━━━━━",
      "🖥️ Sistemi monitorati: " ++ toString summaries.length,
      ""] ++
     (summaries.map summaryLines).flatten)

/-- server.py `send_daily_report`: the daily report job.  Clock reads
become the parameter `now`; the notifier's configuration and transport
outcome become `ntfy_enabled` and `transport_ok`; `retention_days` is
`config.database.retention_days`.  Note the variable the source calls
`yesterday` is the midnight of the *current* day. -/
def send_daily_report (now : Int) (ntfy_enabled : Bool) (transport_ok : Bool)
    (retention_days : Nat) (db : DB) : DailyRunResult :=
  let yesterday := midnightOf now
  if was_daily_report_sent yesterday db then
    { db := db, outcome := .alreadySent, outbound := false }
  else if (get_clients db).isEmpty then
    { db := db, outcome := .noClients, outbound := false }
  else
    match daily_summaries now db with
    | [] => { db := db, outcome := .noSummaries, outbound := false }
    | s :: ss =>
      let summaries := s :: ss
      let report_content := dailyReportContent yesterday summaries
      let res := send_notification ntfy_enabled transport_ok
      if res.1 then
        { db := (cleanup_old_data now retention_days
            (store_daily_report yesterday report_content summaries.length now
              db)).1
          outcome := .sent, outbound := res.2 }
      else
        { db := (cleanup_old_data now retention_days db).1
          outcome := .sendFailed, outbound := res.2 }

/-- Inputs of one daily-report job invocation. -/
structure RunInput where
  now : Int
  ntfy_enabled : Bool
  transport_ok : Bool
  retention_days : Nat
deriving Repr, DecidableEq

/-- Run `send_daily_report` once per input, threading the database;
returns the final database and how many runs dispatched successfully
(took the `.sent` path). -/
def runTrace (db : DB) : List RunInput → DB × Nat
  | [] => (db, 0)
  | i :: is =>
    let r := send_daily_report i.now i.ntfy_enabled i.transport_ok
      i.retention_days db
    let rec_result := runTrace r.db is
    (rec_result.1, (if r.outcome = .sent then 1 else 0) + rec_result.2)

/-! ## Auxiliary notions used by the specification statements -/

/-- An alert with its `recorded_at` field forgotten (for comparing two
evaluator calls made at different clock readings). -/
def eraseRecordedAt (a : Alert) : Alert := { a with recorded_at := 0 }

/-- The category of a `metric_name`, numbered in the order the spec
prescribes for emitted alerts: cpu 0, ram 1, disk 2, temperature 3,
load 4. -/
def kindName (name : String) : Nat :=
  if name == "cpu_percent" then 0
  else if name == "ram_percent" then 1
  else if name == "cpu_temperature" then 3
  else if name == "load_avg" then 4
  else 2

/-- Keep only the snapshots and alerts whose timestamp falls on day `d`
(used to state that the daily report reads nothing outside the current
day's window). -/
def restrictToDay (d : Int) (db : DB) : DB :=
  { db with
    metrics := db.metrics.filter (fun r =>
      decide (secPerDay * d ≤ r.collected_at) &&
        decide (r.collected_at < secPerDay * d + secPerDay))
    alerts := db.alerts.filter (fun a =>
      decide (secPerDay * d ≤ a.alert.recorded_at) &&
        decide (a.alert.recorded_at < secPerDay * d + secPerDay)) }

/-! ## Concrete inputs used by witnesses and counterexamples -/

/-- A plain snapshot: no temperature reading, nothing over threshold. -/
def mBase : SystemMetrics :=
  { client_id := "c1"
    hostname := "h1"
    collected_at := 0
    cpu_percent := 10
    cpu_count := 4
    cpu_freq_mhz := none
    cpu_temperature := { max_temp_celsius := none, recorded_at := 0, available := true }
    ram_total_gb := 8
    ram_used_gb := 4
    ram_available_gb := 4
    ram_percent := 50
    swap_total_gb := 0
    swap_used_gb := 0
    swap_percent := 0
    disk_partitions := []
    network_io := { bytes_sent := 1000, bytes_recv := 2000, packets_sent := 10, packets_recv := 20 }
    uptime_seconds := 3600
    process_count := 10
    load_avg_1 := 1
    load_avg_5 := 1
    load_avg_15 := 1 }

/-- One client, one snapshot at the epoch. -/
def dbOne : DB := store_metrics mBase {}

/-- `mBase` with the CPU over the default 90% threshold. -/
def mCpuHot : SystemMetrics := { mBase with cpu_percent := 95 }

/-- A snapshot whose temperature sensor is flagged unavailable but still
carries a 70 °C value. -/
def mTempUnavail : SystemMetrics :=
  { mBase with cpu_temperature :=
      { max_temp_celsius := some 70, recorded_at := 0, available := false } }

/-- One client, one snapshot with an unavailable-but-valued temperature. -/
def dbTempUnavail : DB := store_metrics mTempUnavail {}

/-- Second snapshot an hour later whose bytes_sent counter reset
(1000 → 500). -/
def mNetReset : SystemMetrics :=
  { mBase with
    collected_at := 3600
    network_io := { bytes_sent := 500, bytes_recv := 2500, packets_sent := 11, packets_recv := 21 } }

/-- Two snapshots for `c1` with a bytes_sent counter reset between them. -/
def dbNetReset : DB := store_metrics mNetReset (store_metrics mBase {})

/-- The `metrics` row that `store_metrics mBase` writes. -/
def rowBase : MetricRow :=
  { client_id := "c1", hostname := "h1", collected_at := 0
    cpu_percent := 10, cpu_count := 4, cpu_freq_mhz := none
    cpu_temp_max := none, cpu_temp_time := none, cpu_temp_available := true
    ram_total_gb := 8, ram_used_gb := 4, ram_available_gb := 4, ram_percent := 50
    swap_total_gb := 0, swap_used_gb := 0, swap_percent := 0
    disk_partitions := []
    network_bytes_sent := 1000, network_bytes_recv := 2000
    network_packets_sent := 10, network_packets_recv := 20
    uptime_seconds := 3600, process_count := 10
    load_avg_1 := 1, load_avg_5 := 1, load_avg_15 := 1 }

/-- The `metrics` row that `store_metrics mNetReset` writes. -/
def rowNetReset : MetricRow :=
  { rowBase with
    collected_at := 3600,
    network_bytes_sent := 500, network_bytes_recv := 2500,
    network_packets_sent := 11, network_packets_recv := 21 }

/-- A concrete package-update set for `c1`. -/
def uPkg : PackageUpdates :=
  { client_id := "c1"
    hostname := "h1"
    collected_at := 42
    package_manager := "apt"
    packages := [{ name := "bash", current_version := "5.1", new_version := "5.2", repository := none }]
    security_updates := 1 }

/-! ## Theorems

The `attribute` lines below make the library's rational arithmetic
unfold again so that concrete runs of the embedded program evaluate
inside `decide`/`rfl` proofs. -/

section

attribute [local semireducible] Rat.add Rat.mul Rat.sub Rat.inv Rat.ofScientific

/-- `find?` by client id is unchanged by first dropping rows of a
different client id. -/
theorem find?_filter_ne_client (c uc : String) (h : c ≠ uc)
    (l : List PackageUpdates) :
    (l.filter (fun v => v.client_id != uc)).find? (fun v => v.client_id == c)
      = l.find? (fun v => v.client_id == c) := by
  induction l with
  | nil => rfl
  | cons a l ih =>
    by_cases ha : a.client_id = uc
    · have h1 : (a.client_id != uc) = false := by simp [ha]
      have h2 : (a.client_id == c) = false := by
        simp [ha]; exact fun hh => h hh.symm
      simp [List.filter_cons, List.find?_cons, h1, h2, ih]
    · have h1 : (a.client_id != uc) = true := by simp [ha]
      by_cases hc : a.client_id = c <;>
        simp [List.filter_cons, List.find?_cons, h1, hc, h, ih]

/-- C1: `POST /packages` stores the payload as the client's latest
package-update set (superseding only that client's earlier sets),
performs no threshold evaluation (the metrics and alerts tables are
untouched), returns a status/message/received_at acknowledgement, and
the stored set is retrievable through `get_latest_package_updates`.
(The package-update store methods are modelled from the spec: database.py
as shipped does not define them.) -/
theorem packages_post_stores_latest (u : PackageUpdates) (now : Int) (db : DB) :
    get_latest_package_updates u.client_id (receive_package_updates u now db).1
      = some u ∧
    (∀ c : String, c ≠ u.client_id →
      get_latest_package_updates c (receive_package_updates u now db).1
        = get_latest_package_updates c db) ∧
    (receive_package_updates u now db).1.alerts = db.alerts ∧
    (receive_package_updates u now db).1.metrics = db.metrics ∧
    (receive_package_updates u now db).2 =
      { status := "ok"
        message := "Package updates stored: " ++ toString u.total_count ++
          " packages"
        received_at := now } := by
  refine ⟨?_, ?_, rfl, rfl, rfl⟩
  · simp [receive_package_updates, store_package_updates,
      get_latest_package_updates, List.find?_cons]
  · intro c hc
    have h2 : (u.client_id == c) = false := by
      simp; exact fun hh => hc hh.symm
    simp only [receive_package_updates, store_package_updates,
      get_latest_package_updates, List.find?_cons, h2]
    exact find?_filter_ne_client c u.client_id hc db.package_updates

/-- Witness for C1: concrete payload into a concrete store. -/
theorem packages_post_stores_latest_witness :
    get_latest_package_updates "c1" (receive_package_updates uPkg 7 dbOne).1
      = some uPkg ∧
    get_latest_package_updates "c2" (receive_package_updates uPkg 7 dbOne).1
      = get_latest_package_updates "c2" dbOne :=
  ⟨(packages_post_stores_latest uPkg 7 dbOne).1,
   (packages_post_stores_latest uPkg 7 dbOne).2.1 "c2" (by decide)⟩

/-- C3: when the notifier reports failure (and on every path that does
not dispatch successfully) the daily-report job leaves the
`daily_reports` table unchanged: the marker is recorded only when
dispatch succeeds, so the period stays eligible for a later re-trigger. -/
theorem failed_dispatch_records_no_marker (now : Int)
    (enabled transport_ok : Bool) (ret : Nat) (db : DB)
    (h : (send_notification enabled transport_ok).1 = false) :
    (send_daily_report now enabled transport_ok ret db).db.daily_reports
      = db.daily_reports := by
  simp only [send_daily_report, h]
  split
  · rfl
  · split
    · rfl
    · split
      · rfl
      · simp [cleanup_old_data]

/-- Witness for C3: a run over a populated store with the transport
down. -/
theorem failed_dispatch_records_no_marker_witness :
    (send_daily_report 100 true false 30 dbOne).db.daily_reports
      = dbOne.daily_reports :=
  failed_dispatch_records_no_marker 100 true false 30 dbOne (by decide)

/-- C7 counterexample: `cleanup_old_data` deleted the only (31-day-old)
snapshot here, yet its return value is `None` — the deletion counts are
only logged, never returned. -/
theorem cleanup_counts_not_returned :
    (cleanup_old_data (31 * 86400) 30 dbOne).2 = none ∧
    dbOne.metrics.length = 1 ∧
    (cleanup_old_data (31 * 86400) 30 dbOne).1.metrics.length = 0 := by
  decide

/-- C7 amended: prune deletes exactly the snapshots and alerts older than
`now - retention_days` (rows inside the window survive), touches neither
the Client rows nor the report markers nor the package-update sets, and
returns nothing (the counts are computed only for the log line). -/
theorem cleanup_deletes_exactly_old (now : Int) (ret : Nat) (db : DB) :
    (cleanup_old_data now ret db).1.metrics
      = db.metrics.filter
          (fun r => !decide (r.collected_at < now - ret * secPerDay)) ∧
    (cleanup_old_data now ret db).1.alerts
      = db.alerts.filter
          (fun a => !decide (a.alert.recorded_at < now - ret * secPerDay)) ∧
    (cleanup_old_data now ret db).1.clients = db.clients ∧
    (cleanup_old_data now ret db).1.daily_reports = db.daily_reports ∧
    (cleanup_old_data now ret db).1.package_updates = db.package_updates ∧
    (cleanup_old_data now ret db).2 = none :=
  ⟨rfl, rfl, rfl, rfl, rfl, rfl⟩

/-! ### Daily-report scheduling lemmas -/

/-- The day key is invariant under taking midnight. -/
theorem dayOf_midnightOf (t : Int) : dayOf (midnightOf t) = dayOf t := by
  unfold midnightOf dayOf
  exact Int.mul_fdiv_cancel_left _ (by norm_num [secPerDay])

/-- The report-sent check only looks at the day key. -/
theorem was_sent_eq_markerFor (t : Int) (db : DB) :
    was_daily_report_sent t db
      = db.daily_reports.any (fun r => r.report_date == dayOf t) := rfl

/-- After `store_daily_report` for a date, the report-sent check for that
date holds. -/
theorem was_sent_after_store (t n : Int) (c : String) (k : Nat) (db : DB) :
    was_daily_report_sent t (store_daily_report t c k n db) = true := by
  simp [was_daily_report_sent, store_daily_report]

/-- Pruning never touches the `daily_reports` table. -/
theorem was_sent_cleanup (t n : Int) (ret : Nat) (db : DB) :
    was_daily_report_sent t (cleanup_old_data n ret db).1
      = was_daily_report_sent t db := rfl

/-- A run for an already-recorded period is a no-op: it returns
`alreadySent` and leaves the database untouched. -/
theorem marker_blocks (now : Int) (e tr : Bool) (ret : Nat) (db : DB)
    (h : was_daily_report_sent (midnightOf now) db = true) :
    send_daily_report now e tr ret db
      = { db := db, outcome := .alreadySent, outbound := false } := by
  simp [send_daily_report, h]

/-- Shape of one daily-report run: either it did not take the `sent` path
and the markers are untouched, or it took the `sent` path and exactly one
marker keyed to the run's current day was appended. -/
theorem send_daily_report_shape (now : Int) (e tr : Bool) (ret : Nat) (db : DB) :
    ((send_daily_report now e tr ret db).outcome ≠ .sent ∧
      (send_daily_report now e tr ret db).db.daily_reports = db.daily_reports) ∨
    ((send_daily_report now e tr ret db).outcome = .sent ∧
      ∃ c k, (send_daily_report now e tr ret db).db.daily_reports
        = db.daily_reports ++
          [{ report_date := dayOf now, sent_at := now,
             client_count := k, report_content := c }]) := by
  by_cases h1 : was_daily_report_sent (midnightOf now) db = true
  · rw [marker_blocks now e tr ret db h1]
    exact Or.inl ⟨by simp, rfl⟩
  · have h1' : was_daily_report_sent (midnightOf now) db = false := by
      simpa using h1
    by_cases h2 : (get_clients db).isEmpty = true
    · have hrun : send_daily_report now e tr ret db
          = { db := db, outcome := .noClients, outbound := false } := by
        simp [send_daily_report, h1', h2]
      rw [hrun]; exact Or.inl ⟨by simp, rfl⟩
    · have h2' : (get_clients db).isEmpty = false := by simpa using h2
      cases hds : daily_summaries now db with
      | nil =>
        have hrun : send_daily_report now e tr ret db
            = { db := db, outcome := .noSummaries, outbound := false } := by
          simp [send_daily_report, h1', h2', hds]
        rw [hrun]; exact Or.inl ⟨by simp, rfl⟩
      | cons s ss =>
        by_cases h3 : (send_notification e tr).1 = true
        · have hrun : send_daily_report now e tr ret db
              = { db := (cleanup_old_data now ret
                    (store_daily_report (midnightOf now)
                      (dailyReportContent (midnightOf now) (s :: ss))
                      (s :: ss).length now db)).1
                  outcome := .sent
                  outbound := (send_notification e tr).2 } := by
            simp [send_daily_report, h1', h2', hds, h3]
          rw [hrun]
          refine Or.inr ⟨rfl,
            dailyReportContent (midnightOf now) (s :: ss), (s :: ss).length, ?_⟩
          simp [cleanup_old_data, store_daily_report, dayOf_midnightOf]
        · have h3' : (send_notification e tr).1 = false := by simpa using h3
          have hrun : send_daily_report now e tr ret db
              = { db := (cleanup_old_data now ret db).1
                  outcome := .sendFailed
                  outbound := (send_notification e tr).2 } := by
            simp [send_daily_report, h1', h2', hds, h3']
          rw [hrun]; exact Or.inl ⟨by simp, by simp [cleanup_old_data]⟩

/-- A run that took the `sent` path records the marker for its day. -/
theorem sent_marks (now : Int) (e tr : Bool) (ret : Nat) (db : DB)
    (h : (send_daily_report now e tr ret db).outcome = .sent) :
    was_daily_report_sent (midnightOf now)
      (send_daily_report now e tr ret db).db = true := by
  rcases send_daily_report_shape now e tr ret db with ⟨hn, _⟩ | ⟨_, c, k, hd⟩
  · exact absurd h hn
  · rw [was_sent_eq_markerFor, hd]
    simp [dayOf_midnightOf]

/-- A run that did not take the `sent` path leaves the markers alone. -/
theorem not_sent_preserves (now : Int) (e tr : Bool) (ret : Nat) (db : DB)
    (h : (send_daily_report now e tr ret db).outcome ≠ .sent) :
    (send_daily_report now e tr ret db).db.daily_reports
      = db.daily_reports := by
  rcases send_daily_report_shape now e tr ret db with ⟨_, hd⟩ | ⟨hs, _⟩
  · exact hd
  · exact absurd hs h

/-- Marker presence for a fixed day never goes away across runs. -/
theorem marker_monotone (now : Int) (e tr : Bool) (ret : Nat) (db : DB)
    (d : Int) (h : db.daily_reports.any (fun r => r.report_date == d) = true) :
    ((send_daily_report now e tr ret db).db.daily_reports.any
      (fun r => r.report_date == d)) = true := by
  rcases send_daily_report_shape now e tr ret db with ⟨_, hd⟩ | ⟨_, c, k, hd⟩ <;>
    simp [hd, h]

/-- Core induction for C2: across any sequence of runs whose clock
readings all fall on day `d`, the number of successful dispatches plus
the initial marker state is at most one. -/
theorem runTrace_bound (d : Int) (runs : List RunInput) :
    ∀ db : DB, (∀ i ∈ runs, dayOf i.now = d) →
    (runTrace db runs).2 +
      (if db.daily_reports.any (fun r => r.report_date == d) then 1 else 0)
      ≤ 1 := by
  induction runs with
  | nil => intro db _; simp [runTrace]; split <;> omega
  | cons i is ih =>
    intro db h
    have hd : dayOf i.now = d := h i (List.mem_cons_self i is)
    have htail : ∀ j ∈ is, dayOf j.now = d :=
      fun j hj => h j (List.mem_cons_of_mem i hj)
    by_cases hm : db.daily_reports.any (fun r => r.report_date == d) = true
    · have hb := marker_blocks i.now i.ntfy_enabled i.transport_ok
        i.retention_days db
        (by rw [was_sent_eq_markerFor, dayOf_midnightOf, hd]; exact hm)
      have := ih db htail
      rw [hm] at this ⊢
      simp only [runTrace, hb] at this ⊢
      simp at this ⊢
      omega
    · have hm' : db.daily_reports.any (fun r => r.report_date == d) = false :=
        by simpa using hm
      set r := send_daily_report i.now i.ntfy_enabled i.transport_ok
        i.retention_days db with hr
      have htrace : (runTrace db (i :: is)).2
          = (if r.outcome = .sent then 1 else 0) + (runTrace r.db is).2 := by
        simp [runTrace, hr]
      by_cases hs : r.outcome = .sent
      · have hpost : r.db.daily_reports.any (fun r => r.report_date == d)
            = true := by
          have := sent_marks i.now i.ntfy_enabled i.transport_ok
            i.retention_days db (hr ▸ hs)
          rw [was_sent_eq_markerFor, dayOf_midnightOf, hd] at this
          exact hr ▸ this
        have := ih r.db htail
        rw [hpost] at this
        rw [htrace, hm', hs]
        simp at this ⊢
        omega
      · have hpost : r.db.daily_reports.any (fun r => r.report_date == d)
            = db.daily_reports.any (fun r => r.report_date == d) := by
          have := not_sent_preserves i.now i.ntfy_enabled i.transport_ok
            i.retention_days db (hr ▸ hs)
          rw [hr, this]
        have := ih r.db htail
        rw [hpost, hm'] at this
        rw [htrace, hm']
        simp [hs] at this ⊢
        omega

/-- C2: for any state and any number of daily-report runs whose clock
readings fall on the same date, at most one run dispatches the
notification; and after a run that dispatched successfully,
`was_daily_report_sent` holds for that date. -/
theorem daily_report_at_most_once (db : DB) (d : Int) (runs : List RunInput)
    (h : ∀ i ∈ runs, dayOf i.now = d) :
    (runTrace db runs).2 ≤ 1 ∧
    (∀ (now : Int) (e tr : Bool) (ret : Nat) (db0 : DB),
      (send_daily_report now e tr ret db0).outcome = .sent →
      was_daily_report_sent (midnightOf now)
        (send_daily_report now e tr ret db0).db = true) := by
  constructor
  · have := runTrace_bound d runs db h
    split at this <;> omega
  · exact fun now e tr ret db0 hs => sent_marks now e tr ret db0 hs

/-- Witness for C2: two same-day runs over a populated store dispatch
exactly once, and the marker is set after the dispatching run. -/
theorem daily_report_at_most_once_witness :
    (runTrace dbOne [⟨100, true, true, 30⟩, ⟨200, true, true, 30⟩]).2 ≤ 1 ∧
    was_daily_report_sent (midnightOf 100)
      (send_daily_report 100 true true 30 dbOne).db = true :=
  ⟨(daily_report_at_most_once dbOne 0
      [⟨100, true, true, 30⟩, ⟨200, true, true, 30⟩] (by decide)).1,
   (daily_report_at_most_once dbOne 0 [] (by simp)).2 100 true true 30 dbOne
     (by decide)⟩


/-- A nonempty summary list implies registered clients exist. -/
theorem clients_nonempty_of_summaries (now : Int) (db : DB)
    (h : daily_summaries now db ≠ []) : (get_clients db).isEmpty = false := by
  cases hc : get_clients db with
  | nil => exact absurd (by simp [daily_summaries, hc]) h
  | cons c cs => rfl

/-- C9: with notifications disabled, `send_notification` returns success
without any outbound call; a daily-report run that reaches dispatch
therefore takes the `sent` path with no outbound call, records the
marker for the date, and every later same-day run is suppressed as
already sent — although nothing was delivered. -/
theorem disabled_notifications_mark_report_sent (now : Int)
    (transport_ok : Bool) (ret : Nat) (db : DB)
    (h1 : was_daily_report_sent (midnightOf now) db = false)
    (h2 : daily_summaries now db ≠ []) :
    send_notification false transport_ok = (true, false) ∧
    (send_daily_report now false transport_ok ret db).outcome = .sent ∧
    (send_daily_report now false transport_ok ret db).outbound = false ∧
    was_daily_report_sent (midnightOf now)
      (send_daily_report now false transport_ok ret db).db = true ∧
    (∀ (now2 : Int), dayOf now2 = dayOf now → ∀ (e tr : Bool) (ret2 : Nat),
      (send_daily_report now2 e tr ret2
        (send_daily_report now false transport_ok ret db).db).outcome
        = .alreadySent) := by
  have hc : (get_clients db).isEmpty = false :=
    clients_nonempty_of_summaries now db h2
  obtain ⟨s, ss, hds⟩ : ∃ s ss, daily_summaries now db = s :: ss := by
    cases hds : daily_summaries now db with
    | nil => exact absurd hds h2
    | cons s ss => exact ⟨s, ss, rfl⟩
  have hrun : send_daily_report now false transport_ok ret db
      = { db := (cleanup_old_data now ret
            (store_daily_report (midnightOf now)
              (dailyReportContent (midnightOf now) (s :: ss))
              (s :: ss).length now db)).1
          outcome := .sent
          outbound := false } := by
    simp [send_daily_report, h1, hc, hds, send_notification]
  have hmark : was_daily_report_sent (midnightOf now)
      (send_daily_report now false transport_ok ret db).db = true := by
    rw [hrun]
    rw [was_sent_cleanup]
    exact was_sent_after_store _ _ _ _ _
  refine ⟨rfl, by rw [hrun], by rw [hrun], hmark, ?_⟩
  intro now2 hd2 e tr ret2
  have hm2 : was_daily_report_sent (midnightOf now2)
      (send_daily_report now false transport_ok ret db).db = true := by
    rw [was_sent_eq_markerFor, dayOf_midnightOf, hd2, ← dayOf_midnightOf now,
      ← was_sent_eq_markerFor]
    exact hmark
  rw [marker_blocks now2 e tr ret2 _ hm2]

/-- Witness for C9: disabled notifier over a populated store — the run is
recorded as sent with no outbound call, and a second same-day run is
suppressed. -/
theorem disabled_notifications_mark_report_sent_witness :
    (send_daily_report 100 false true 30 dbOne).outcome = .sent ∧
    (send_daily_report 100 false true 30 dbOne).outbound = false ∧
    (send_daily_report 7200 true true 30
      (send_daily_report 100 false true 30 dbOne).db).outcome
      = .alreadySent :=
  ⟨(disabled_notifications_mark_report_sent 100 true 30 dbOne (by decide)
      (by decide)).2.1,
   (disabled_notifications_mark_report_sent 100 true 30 dbOne (by decide)
      (by decide)).2.2.1,
   (disabled_notifications_mark_report_sent 100 true 30 dbOne (by decide)
      (by decide)).2.2.2.2 7200 (by decide) true true 30⟩


/-! ### The daily-report window (C10) -/

/-- Taking midnight twice is the same as once. -/
theorem midnightOf_idem (t : Int) : midnightOf (midnightOf t) = midnightOf t := by
  calc midnightOf (midnightOf t) = secPerDay * dayOf (midnightOf t) := rfl
    _ = secPerDay * dayOf t := by rw [dayOf_midnightOf]
    _ = midnightOf t := rfl

/-- Absorption: `(a && b) && b = a && b`. -/
theorem and_absorb_right (a b : Bool) : ((a && b) && b) = (a && b) := by
  cases a <;> cases b <;> rfl

/-- Restricting the store to the run's day does not change the summary
query's row set. -/
theorem summaryWindowRows_restrict (cid : String) (now : Int) (db : DB) :
    summaryWindowRows cid (midnightOf now) (restrictToDay (dayOf now) db)
      = summaryWindowRows cid (midnightOf now) db := by
  unfold summaryWindowRows
  have hm : (restrictToDay (dayOf now) db).metrics
      = db.metrics.filter (fun r =>
          decide (secPerDay * dayOf now ≤ r.collected_at) &&
            decide (r.collected_at < secPerDay * dayOf now + secPerDay)) := rfl
  rw [hm, List.filter_filter]
  congr 1
  apply List.filter_congr
  intro x _
  exact and_absorb_right (x.client_id == cid) _

/-- Restricting the store to the run's day does not change the summary's
alert count. -/
theorem summaryAlertsCount_restrict (cid : String) (now : Int) (db : DB) :
    summaryAlertsCount cid (midnightOf now) (restrictToDay (dayOf now) db)
      = summaryAlertsCount cid (midnightOf now) db := by
  unfold summaryAlertsCount
  have hm : (restrictToDay (dayOf now) db).alerts
      = db.alerts.filter (fun a =>
          decide (secPerDay * dayOf now ≤ a.alert.recorded_at) &&
            decide (a.alert.recorded_at < secPerDay * dayOf now + secPerDay)) := rfl
  rw [hm, List.filter_filter]
  congr 1
  apply List.filter_congr
  intro x _
  exact and_absorb_right (x.alert.client_id == cid) _

/-- The daily summary for the current date reads nothing outside that
date's window. -/
theorem get_daily_summary_restrict (cid : String) (now : Int) (db : DB) :
    get_daily_summary cid (midnightOf now) (restrictToDay (dayOf now) db)
      = get_daily_summary cid (midnightOf now) db := by
  have h1 : (restrictToDay (dayOf now) db).clients = db.clients := rfl
  have h2 := summaryWindowRows_restrict cid now db
  have h3 := summaryAlertsCount_restrict cid now db
  simp only [get_daily_summary, midnightOf_idem, h1, h2, h3]

/-- The collected per-client summaries agree with those over the
restricted store. -/
theorem daily_summaries_restrict (now : Int) (db : DB) :
    daily_summaries now (restrictToDay (dayOf now) db)
      = daily_summaries now db := by
  unfold daily_summaries
  rw [show get_clients (restrictToDay (dayOf now) db) = get_clients db from rfl]
  apply List.filterMap_congr
  intro c _
  exact get_daily_summary_restrict c.client_id now db

/-- The daily-report job's outcome and markers depend on the store only
through the markers, the client registry and the per-client summaries. -/
theorem send_daily_report_congr (now : Int) (e tr : Bool) (ret : Nat)
    (db1 db2 : DB)
    (hw : db1.daily_reports = db2.daily_reports)
    (hc : get_clients db1 = get_clients db2)
    (hs : daily_summaries now db1 = daily_summaries now db2) :
    (send_daily_report now e tr ret db1).outcome
      = (send_daily_report now e tr ret db2).outcome ∧
    (send_daily_report now e tr ret db1).db.daily_reports
      = (send_daily_report now e tr ret db2).db.daily_reports := by
  have hw' : was_daily_report_sent (midnightOf now) db1
      = was_daily_report_sent (midnightOf now) db2 := by
    rw [was_sent_eq_markerFor, was_sent_eq_markerFor, hw]
  by_cases h1 : was_daily_report_sent (midnightOf now) db2 = true
  · rw [marker_blocks now e tr ret db1 (by rw [hw']; exact h1),
      marker_blocks now e tr ret db2 h1]
    exact ⟨rfl, hw⟩
  · have h1' : was_daily_report_sent (midnightOf now) db2 = false := by
      simpa using h1
    have h1'' : was_daily_report_sent (midnightOf now) db1 = false := by
      rw [hw']; exact h1'
    by_cases h2 : (get_clients db2).isEmpty = true
    · have e1 : send_daily_report now e tr ret db1
          = { db := db1, outcome := .noClients, outbound := false } := by
        simp [send_daily_report, h1'', hc, h2]
      have e2 : send_daily_report now e tr ret db2
          = { db := db2, outcome := .noClients, outbound := false } := by
        simp [send_daily_report, h1', h2]
      rw [e1, e2]; exact ⟨rfl, hw⟩
    · have h2' : (get_clients db2).isEmpty = false := by simpa using h2
      cases hds2 : daily_summaries now db2 with
      | nil =>
        have e1 : send_daily_report now e tr ret db1
            = { db := db1, outcome := .noSummaries, outbound := false } := by
          simp [send_daily_report, h1'', hc, h2', hs.trans hds2]
        have e2 : send_daily_report now e tr ret db2
            = { db := db2, outcome := .noSummaries, outbound := false } := by
          simp [send_daily_report, h1', h2', hds2]
        rw [e1, e2]; exact ⟨rfl, hw⟩
      | cons s ss =>
        by_cases h3 : (send_notification e tr).1 = true
        · have e1 : send_daily_report now e tr ret db1
              = { db := (cleanup_old_data now ret
                    (store_daily_report (midnightOf now)
                      (dailyReportContent (midnightOf now) (s :: ss))
                      (s :: ss).length now db1)).1
                  outcome := .sent
                  outbound := (send_notification e tr).2 } := by
            simp [send_daily_report, h1'', hc, h2', hs.trans hds2, h3]
          have e2 : send_daily_report now e tr ret db2
              = { db := (cleanup_old_data now ret
                    (store_daily_report (midnightOf now)
                      (dailyReportContent (midnightOf now) (s :: ss))
                      (s :: ss).length now db2)).1
                  outcome := .sent
                  outbound := (send_notification e tr).2 } := by
            simp [send_daily_report, h1', h2', hds2, h3]
          rw [e1, e2]
          refine ⟨rfl, ?_⟩
          simp [cleanup_old_data, store_daily_report, hw]
        · have h3' : (send_notification e tr).1 = false := by simpa using h3
          have e1 : send_daily_report now e tr ret db1
              = { db := (cleanup_old_data now ret db1).1
                  outcome := .sendFailed
                  outbound := (send_notification e tr).2 } := by
            simp [send_daily_report, h1'', hc, h2', hs.trans hds2, h3']
          have e2 : send_daily_report now e tr ret db2
              = { db := (cleanup_old_data now ret db2).1
                  outcome := .sendFailed
                  outbound := (send_notification e tr).2 } := by
            simp [send_daily_report, h1', h2', hds2, h3']
          rw [e1, e2]
          refine ⟨rfl, ?_⟩
          simp [cleanup_old_data, hw]

/-- C10: the daily-report job summarizes the *current* UTC date of its
clock reading: snapshots and alerts outside the current day's window
influence neither the outcome nor the recorded markers, and a successful
run appends exactly one marker keyed to the current date (not the
previous day). -/
theorem daily_report_covers_current_day (now : Int) (e tr : Bool)
    (ret : Nat) (db : DB) :
    (send_daily_report now e tr ret (restrictToDay (dayOf now) db)).outcome
      = (send_daily_report now e tr ret db).outcome ∧
    (send_daily_report now e tr ret
        (restrictToDay (dayOf now) db)).db.daily_reports
      = (send_daily_report now e tr ret db).db.daily_reports ∧
    ((send_daily_report now e tr ret db).outcome = .sent →
      (send_daily_report now e tr ret db).db.daily_reports.map
          (fun r => r.report_date)
        = db.daily_reports.map (fun r => r.report_date) ++ [dayOf now]) := by
  have hcongr := send_daily_report_congr now e tr ret
    (restrictToDay (dayOf now) db) db rfl rfl (daily_summaries_restrict now db)
  refine ⟨hcongr.1, hcongr.2, ?_⟩
  intro hs
  rcases send_daily_report_shape now e tr ret db with ⟨hn, _⟩ | ⟨_, c, k, hd⟩
  · exact absurd hs hn
  · rw [hd]
    simp

/-- Witness for C10: a successful concrete run appends the marker keyed
to the run's own day. -/
theorem daily_report_covers_current_day_witness :
    (send_daily_report 100 true true 30 dbOne).db.daily_reports.map
        (fun r => r.report_date)
      = dbOne.daily_reports.map (fun r => r.report_date) ++ [dayOf 100] :=
  (daily_report_covers_current_day 100 true true 30 dbOne).2.2 (by decide)


/-! ### The threshold evaluator and the clock (C4) -/

/-- C4 counterexample: two calls of `check_thresholds` with the same
snapshot and the same thresholds but different clock readings return
different alert lists — `recorded_at` is the clock reading at call time,
so the claimed call-to-call equality fails. -/
theorem check_thresholds_not_clock_independent :
    check_thresholds mCpuHot {} 0 ≠ check_thresholds mCpuHot {} 1 := by
  decide

/-- C4 amended: `check_thresholds` is a pure function of the snapshot,
the thresholds and the clock reading it makes: two calls with the same
snapshot and thresholds return alert lists equal in every field except
`recorded_at`, and every emitted alert's `recorded_at` equals the
call's clock reading. -/
theorem check_thresholds_deterministic_up_to_clock :
    (∀ (m : SystemMetrics) (t : AlertThresholds) (n₁ n₂ : Int),
      (check_thresholds m t n₁).map eraseRecordedAt
        = (check_thresholds m t n₂).map eraseRecordedAt) ∧
    (∀ (m : SystemMetrics) (t : AlertThresholds) (n : Int),
      (check_thresholds m t n).all (fun a => a.recorded_at == n) = true) := by
  constructor
  · intro m t n₁ n₂
    simp only [check_thresholds, List.map_append]
    split_ifs <;> simp [eraseRecordedAt, List.map_map, Function.comp]
  · intro m t n
    simp only [check_thresholds, List.all_append]
    split_ifs <;> simp [List.all_map, Function.comp] <;>
      (intro x p _ _ heq; subst heq; rfl)

/-! ### Temperature statistics in the daily summary (C6) -/

/-- C6 counterexample: a window whose only snapshot has the temperature
flagged unavailable but a value present — no snapshot is both available
and valued, yet the summary's temperature statistics are not absent:
the code filters only on value presence. -/
theorem temp_stats_ignore_available_flag :
    dbTempUnavail.metrics.all (fun r => !r.cpu_temp_available) = true ∧
    (get_daily_summary "c1" 0 dbTempUnavail).map (fun s => s.temp_avg)
      = some (some 70) ∧
    (get_daily_summary "c1" 0 dbTempUnavail).map (fun s => s.temp_max)
      = some (some 70) := by
  decide

/-- C6 amended: the daily summary's temperature statistics are computed
over exactly the window snapshots where a temperature *value* is present
(the availability flag is not consulted); when no window snapshot
carries a value, `temp_avg`, `temp_max` and `temp_max_time` are all
absent (`none`), not zero. -/
theorem temp_stats_value_presence (cid : String) (date : Int) (db : DB)
    (s : DailySummary) (h : get_daily_summary cid date db = some s) :
    ((summaryWindowRows cid (midnightOf date) db).filterMap
        (fun r => r.cpu_temp_max) = [] →
      s.temp_avg = none ∧ s.temp_max = none ∧ s.temp_max_time = none) ∧
    (∀ (t : ℚ) (ts : List ℚ),
      (summaryWindowRows cid (midnightOf date) db).filterMap
          (fun r => r.cpu_temp_max) = t :: ts →
      s.temp_avg = some (pyRound 1 ((t :: ts).sum / (t :: ts).length)) ∧
      s.temp_max = some (pyRound 1 (pyMaxBy id t ts))) := by
  simp only [get_daily_summary] at h
  cases hf : db.clients.find? (fun c => c.client_id == cid) with
  | none => simp only [hf] at h; exact Option.noConfusion h
  | some client =>
    simp only [hf] at h
    cases hr : summaryWindowRows cid (midnightOf date) db with
    | nil => simp only [hr] at h; exact Option.noConfusion h
    | cons r0 rest =>
      simp only [hr] at h
      have hs := Option.some.inj h
      subst hs
      constructor
      · intro htv
        refine ⟨?_, ?_, ?_⟩ <;> simp [htv]
      · intro t ts htv
        constructor <;> simp [htv]

/-- Witness for C6 amended: the unavailable-but-valued window has the
single temperature value 70, and the summary's average is computed over
exactly that value. -/
theorem temp_stats_value_presence_witness :
    ((summaryWindowRows "c1" (midnightOf 0) dbTempUnavail).filterMap
        (fun r => r.cpu_temp_max) = [(70 : ℚ)]) ∧
    ((get_daily_summary "c1" 0 dbTempUnavail).get (by decide)).temp_avg
      = some (pyRound 1 (([(70 : ℚ)]).sum / ([(70 : ℚ)]).length)) := by
  refine ⟨by decide, ?_⟩
  have h : get_daily_summary "c1" 0 dbTempUnavail
      = some ((get_daily_summary "c1" 0 dbTempUnavail).get (by decide)) :=
    (Option.some_get (by decide)).symm
  exact ((temp_stats_value_presence "c1" 0 dbTempUnavail _ h).2 70 []
    (by decide)).1

/-! ### Network deltas in the daily summary (C8) -/

/-- Rounding a nonnegative rational is nonnegative. -/
theorem pyRoundInt_nonneg (q : ℚ) (h : 0 ≤ q) : 0 ≤ pyRoundInt q := by
  simp only [pyRoundInt]
  have hf : (0 : Int) ≤ q.floor := Rat.le_floor.mpr (by exact_mod_cast h)
  split_ifs <;> omega

/-- `pyRound` preserves nonnegativity. -/
theorem pyRound_nonneg (n : Nat) (q : ℚ) (h : 0 ≤ q) : 0 ≤ pyRound n q := by
  unfold pyRound
  apply div_nonneg
  · exact_mod_cast pyRoundInt_nonneg _ (mul_nonneg h (by positivity))
  · positivity

/-- C8: the summary's network fields are the delta between the
chronologically last and first snapshots of the window (not an average),
converted to GB, clamped to zero when negative — so they are always
nonnegative, and the concrete `bytes_sent = [1000, 500]` counter reset
yields `network_sent_gb = 0`. -/
theorem network_delta_clamped :
    (∀ (cid : String) (date : Int) (db : DB) (s : DailySummary),
      get_daily_summary cid date db = some s →
      ∀ (r0 : MetricRow) (rest : List MetricRow),
      summaryWindowRows cid (midnightOf date) db = r0 :: rest →
      (s.network_sent_gb = pyRound 2
        (if ((((r0 :: rest).getLastD r0).network_bytes_sent
              - r0.network_bytes_sent : Int) : ℚ) / 1024 ^ 3 > 0 then
          ((((r0 :: rest).getLastD r0).network_bytes_sent
              - r0.network_bytes_sent : Int) : ℚ) / 1024 ^ 3
        else 0) ∧
       s.network_recv_gb = pyRound 2
        (if ((((r0 :: rest).getLastD r0).network_bytes_recv
              - r0.network_bytes_recv : Int) : ℚ) / 1024 ^ 3 > 0 then
          ((((r0 :: rest).getLastD r0).network_bytes_recv
              - r0.network_bytes_recv : Int) : ℚ) / 1024 ^ 3
        else 0) ∧
       0 ≤ s.network_sent_gb ∧ 0 ≤ s.network_recv_gb)) ∧
    (get_daily_summary "c1" 0 dbNetReset).map (fun s => s.network_sent_gb)
      = some 0 := by
  constructor
  · intro cid date db s h r0 rest hsr
    simp only [get_daily_summary] at h
    cases hf : db.clients.find? (fun c => c.client_id == cid) with
    | none => simp only [hf] at h; exact Option.noConfusion h
    | some client =>
      simp only [hf, hsr] at h
      have hs := Option.some.inj h
      subst hs
      refine ⟨rfl, rfl, ?_, ?_⟩ <;>
        · apply pyRound_nonneg
          split_ifs with hd
          · exact le_of_lt hd
          · exact le_refl 0
  · decide

/-- Witness for C8 at the counter-reset store: the clamped delta of the
concrete `[1000, 500]` window is zero. -/
theorem network_delta_clamped_witness :
    ((get_daily_summary "c1" 0 dbNetReset).get (by decide)).network_sent_gb
      = 0 := by
  have h : get_daily_summary "c1" 0 dbNetReset
      = some ((get_daily_summary "c1" 0 dbNetReset).get (by decide)) :=
    (Option.some_get (by decide)).symm
  have hw := (network_delta_clamped.1 "c1" 0 dbNetReset _ h
    rowBase [rowNetReset] (by decide)).1
  exact hw.trans (by decide)


/-! ### Evaluator content and order (C5) -/

/-- A name starting with `disk_` differs from any name not starting
with `d`. -/
theorem disk_prefix_ne (t : String) (ht : t.data.headD ' ' ≠ 'd')
    (s : String) : ("disk_" ++ s) ≠ t := by
  intro h
  apply ht
  rw [← h, String.data_append]
  rfl

/-- Disk alerts classify as kind 2. -/
theorem kindName_disk (s : String) : kindName ("disk_" ++ s) = 2 := by
  have h1 : ("disk_" ++ s) ≠ "cpu_percent" := disk_prefix_ne _ (by decide) s
  have h2 : ("disk_" ++ s) ≠ "ram_percent" := disk_prefix_ne _ (by decide) s
  have h3 : ("disk_" ++ s) ≠ "cpu_temperature" := disk_prefix_ne _ (by decide) s
  have h4 : ("disk_" ++ s) ≠ "load_avg" := disk_prefix_ne _ (by decide) s
  simp [kindName, h1, h2, h3, h4]

/-- Mapping the kind over a disk-alert segment yields a block of 2s. -/
theorem disk_seg_map_kind (mk : DiskPartition → Alert)
    (hmk : ∀ p, (mk p).metric_name = "disk_" ++ p.mountpoint)
    (l : List DiskPartition) :
    (l.map mk).map (fun a => kindName a.metric_name)
      = List.replicate l.length 2 := by
  induction l with
  | nil => rfl
  | cons p l ih => simp [hmk, kindName_disk, ih, List.replicate_succ]

/-- A disk-alert segment contributes nothing to the count of a
non-disk metric name. -/
theorem disk_seg_countP (mk : DiskPartition → Alert)
    (hmk : ∀ p, (mk p).metric_name = "disk_" ++ p.mountpoint)
    (nm : String) (h : ∀ s, ("disk_" ++ s) ≠ nm) (l : List DiskPartition) :
    (l.map mk).countP (fun a => a.metric_name == nm) = 0 := by
  induction l with
  | nil => rfl
  | cons p l ih =>
    have hb : ((mk p).metric_name == nm) = false := by
      rw [hmk]
      exact beq_eq_false_iff_ne.mpr (h p.mountpoint)
    simp [List.countP_cons, hb, ih]

/-- Filtering a disk-alert segment for kind 2 keeps every alert, and the
names are the `disk_` names of the underlying partitions in order. -/
theorem disk_seg_filter_map (mk : DiskPartition → Alert)
    (hmk : ∀ p, (mk p).metric_name = "disk_" ++ p.mountpoint)
    (l : List DiskPartition) :
    (((l.map mk).filter (fun a => kindName a.metric_name == 2)).map
        (fun a => a.metric_name))
      = l.map (fun p => "disk_" ++ p.mountpoint) := by
  induction l with
  | nil => rfl
  | cons p l ih => simp [List.filter_cons, hmk, kindName_disk, ih]

/-- C5: the evaluator's output, observed through the metric-name
classifier: strict greater-than comparisons gate each alert; exactly one
`cpu_percent` alert iff the cpu exceeds its threshold; one disk alert
per exceeding partition, named in the snapshot's partition order; the
emitted order is cpu, ram, disks, temperature, load; and the load alert
is gated by `load_avg_1 > load_avg_multiplier * cpu_count`. -/
theorem evaluator_order_and_content (m : SystemMetrics) (t : AlertThresholds)
    (now : Int) :
    ((check_thresholds m t now).map (fun a => kindName a.metric_name)
      = (if m.cpu_percent > t.cpu_percent then [0] else [])
        ++ (if m.ram_percent > t.ram_percent then [1] else [])
        ++ List.replicate
            ((m.disk_partitions.filter
              (fun p => p.percent_used > t.disk_percent)).length) 2
        ++ (if m.cpu_temperature.available ∧
              pyTruthy m.cpu_temperature.max_temp_celsius ∧
              m.cpu_temperature.max_temp_celsius.getD 0 >
                t.temperature_celsius then [3] else [])
        ++ (if m.load_avg_1 > t.load_avg_multiplier * (m.cpu_count : ℚ) then
              [4] else [])) ∧
    ((check_thresholds m t now).countP (fun a => a.metric_name == "cpu_percent")
      = if m.cpu_percent > t.cpu_percent then 1 else 0) ∧
    (((check_thresholds m t now).filter
        (fun a => kindName a.metric_name == 2)).map (fun a => a.metric_name)
      = (m.disk_partitions.filter
          (fun p => p.percent_used > t.disk_percent)).map
            (fun p => "disk_" ++ p.mountpoint)) ∧
    ((check_thresholds m t now).countP (fun a => a.metric_name == "load_avg")
      = if m.load_avg_1 > t.load_avg_multiplier * (m.cpu_count : ℚ) then 1
        else 0) := by
  refine ⟨?_, ?_, ?_, ?_⟩
  · simp only [check_thresholds, List.map_append]
    rw [disk_seg_map_kind _ (fun p => rfl)]
    split_ifs <;> simp [kindName]
  · simp only [check_thresholds, List.countP_append]
    rw [disk_seg_countP _ (fun p => rfl) "cpu_percent"
      (fun s => disk_prefix_ne _ (by decide) s)]
    split_ifs <;> simp [List.countP_cons]
  · simp only [check_thresholds, List.filter_append, List.map_append]
    rw [disk_seg_filter_map _ (fun p => rfl)]
    split_ifs <;> simp [List.filter_cons, kindName]
  · simp only [check_thresholds, List.countP_append]
    rw [disk_seg_countP _ (fun p => rfl) "load_avg"
      (fun s => disk_prefix_ne _ (by decide) s)]
    split_ifs <;> simp [List.countP_cons]

end
